import Mathlib

/-!
Shallow embedding of NimbusScroll (src/main.rs): the kinetics engine
(`State::step`, `State::flush`), the raw-event capture loop (`raw_main`),
the low-level mouse hook (`hook_proc`), and the lifecycle coordinator
(`on_wm_command` plus the `WM_RAW_STOPPED` handler in `main`).

f32 values are idealized as exact reals wrapped in `Option`: `some x` is a
finite float of exact value `x`, `none` is a non-finite value (NaN or an
infinity).  Rounding of finite operations is not modelled; the places where a
non-finite value can actually arise in this program (division by zero in
`State::step` when the decay config is 0, and division by a zero performance
frequency) are modelled exactly, as is the Rust `as i32` cast (truncation
toward zero, saturation, NaN mapped to 0).
-/

namespace NimbusScroll

/-- Idealized f32: `some x` = finite value `x`, `none` = NaN or ±infinity. -/
def F : Type := Option ℝ

/-- Finite float literal from an integer (i32/i16 to f32 conversion; exact for
the magnitudes this program produces). -/
def i2f (z : ℤ) : F := some (z : ℝ)

/-- Finite float from a u64 counter value (`tick as f32`, `freq as f32`). -/
def n2f (n : ℕ) : F := some (n : ℝ)

/-- f32 addition: NaN/inf absorbs, finite addition is exact. -/
def fadd : F → F → F
  | some a, some b => some (a + b)
  | _, _ => none

/-- f32 subtraction. -/
def fsub : F → F → F
  | some a, some b => some (a - b)
  | _, _ => none

/-- f32 multiplication. -/
def fmul : F → F → F
  | some a, some b => some (a * b)
  | _, _ => none

/-- f32 negation. -/
def fneg : F → F
  | some a => some (-a)
  | none => none

/-- f32 division: division by zero yields a non-finite value (NaN for 0/0,
±infinity otherwise), modelled uniformly as `none`. -/
noncomputable def fdiv : F → F → F
  | some a, some b => if b = 0 then none else some (a / b)
  | _, _ => none

/-- f32 `exp` (`(-dt * mu).exp()` in the source): finite exponents used by this
program are nonpositive, so the result is finite. -/
noncomputable def fexp : F → F
  | some a => some (Real.exp a)
  | none => none

/-- f32 `<` comparison; any comparison against NaN is false. -/
noncomputable def flt : F → F → Bool
  | some a, some b => decide (a < b)
  | _, _ => false

/-- Rust `f32 as i32`: truncation toward zero, saturation at the i32 range,
NaN to 0. -/
noncomputable def f2i : F → ℤ
  | none => 0
  | some x => max (-(2 ^ 31)) (min (2 ^ 31 - 1) (if 0 ≤ x then ⌊x⌋ else ⌈x⌉))

-- ---------------------------------------------------------------------------
-- Configuration (struct Config, and the clamps applied in start_thread)
-- ---------------------------------------------------------------------------

/-- The `Config` struct from the source (all fields i32). -/
structure Config where
  decay : ℤ
  sens_y : ℤ
  sens_x : ℤ
  step_y : ℤ
  step_x : ℤ
  flick : ℤ
  think : ℤ

/-- The config load performed at the top of `start_thread`: raw ini values with
`decay`, `step_y`, `step_x` clamped by `.max(0)` and the flags clamped by
`.clamp(0, 1)`.  Note that `decay = 0` passes the clamp unchanged. -/
def loadConfig (d sy sx py px fl th : ℤ) : Config :=
  { decay := max d 0
    sens_y := sy
    sens_x := sx
    step_y := max py 0
    step_x := max px 0
    flick := min (max fl 0) 1
    think := min (max th 0) 1 }

/-- The compile-time `GLOBAL_CONFIG` defaults. -/
def defaultConfig : Config :=
  { decay := 3, sens_y := 18, sens_x := 0, step_y := 120, step_x := 120
    flick := 0, think := 0 }

-- ---------------------------------------------------------------------------
-- Low-level mouse hook (hook_proc)
-- ---------------------------------------------------------------------------

/-- The fields of `MSLLHOOKSTRUCT` read through `l_param` (plus the ones the
hook merely forwards). -/
structure MSLL where
  ptx : ℤ
  pty : ℤ
  mouse_data : ℕ
  flags : ℕ
  time : ℕ
  dw_extra_info : ℕ
  deriving DecidableEq

/-- Result of one `hook_proc` invocation: return 1 without calling
`CallNextHookEx` (the event is swallowed), or `CallNextHookEx(null, code,
w_param, l_param)` with the arguments passed through unchanged. -/
inductive HookRes where
  | swallowed
  | forwarded (code : ℤ) (w_param : ℕ) (ev : MSLL)
  deriving DecidableEq

/-- The hook callback `hook_proc`: for `WM_MBUTTONDOWN` (0x207) / `WM_MBUTTONUP` (0x208) it
returns 1 unless the low two flag bits of the event are set and its
`dw_extra_info` equals the address of `MAGIC_WORD` (the `pass` marker,
modelled as the parameter `pass`); every other message falls through to
`CallNextHookEx` with unchanged arguments. -/
def hook_proc (pass : ℕ) (code : ℤ) (w_param : ℕ) (ev : MSLL) : HookRes :=
  if w_param = 0x207 ∨ w_param = 0x208 then
    if ev.flags &&& 3 = 0 ∨ ev.dw_extra_info ≠ pass then HookRes.swallowed
    else HookRes.forwarded code w_param ev
  else HookRes.forwarded code w_param ev

-- ---------------------------------------------------------------------------
-- Lifecycle coordinator (on_wm_command ids 104/105/106, WM_RAW_STOPPED)
-- ---------------------------------------------------------------------------

/-- The cross-thread mutable state owned by the main thread: the capture
thread handle (`RAW_THREAD_HANDLE`), the restart-pending flag
(`RAW_THREAD_PENDING`), plus a bookkeeping counter of successful
`start_thread` invocations used to state the restart-count property. -/
structure Coord where
  raw_handle : Option ℕ
  pending : Bool
  started : ℕ
  deriving DecidableEq

/-- Observable coordinator effects: posting `WM_QUIT` (0x0012) to the capture
thread, and spawning a capture thread. -/
inductive CoordAct where
  | postQuitRaw
  | startRawThread
  deriving DecidableEq

/-- The `start_thread` routine on its success path: creates the thread and stores the new
handle (`CreateThread` failure is not modelled; the claims quantify over the
success path). -/
def start_thread (c : Coord) : Coord × List CoordAct :=
  ({ c with raw_handle := some (c.started + 1), started := c.started + 1 },
    [CoordAct.startRawThread])

/-- The `on_wm_command` handler for the lifecycle menu ids: 104 is pause (clear pending,
post quit), 105/106 are resume (if a capture thread is live: set pending
*then* post quit; otherwise clear pending and start directly). -/
def on_wm_command (id : ℕ) (c : Coord) : Coord × List CoordAct :=
  if id = 104 then
    if c.raw_handle.isSome then ({ c with pending := false }, [CoordAct.postQuitRaw])
    else (c, [])
  else if id = 105 ∨ id = 106 then
    if c.raw_handle.isSome then ({ c with pending := true }, [CoordAct.postQuitRaw])
    else start_thread { c with pending := false }
  else (c, [])

/-- The `WM_RAW_STOPPED` arm of the main message loop: close and clear the
stored handle, then if the pending flag is set, clear it and start exactly one
new capture thread. -/
def on_raw_stopped (c : Coord) : Coord × List CoordAct :=
  let c1 := { c with raw_handle := none }
  if c1.pending then start_thread { c1 with pending := false }
  else (c1, [])

-- ---------------------------------------------------------------------------
-- Kinetics engine (struct State, State::step, State::flush)
-- ---------------------------------------------------------------------------

/-- The `Vec2f` struct (two f32 components). -/
structure Vec2f where
  x : F
  y : F

/-- The `Vec2i` struct (two i32 components). -/
structure Vec2i where
  x : ℤ
  y : ℤ
  deriving DecidableEq

/-- A `[i32; 4]` clip rectangle: indices 0..3 are left, top, right, bottom. -/
structure Rect where
  r0 : ℤ
  r1 : ℤ
  r2 : ℤ
  r3 : ℤ
  deriving DecidableEq

/-- The `State` struct. -/
structure State where
  vel : Vec2f
  res : Vec2f
  rect : Rect
  is_button_scrolling : Bool
  cancel_pending : Bool

/-- The constructor `State::new()`. -/
def State.new : State :=
  { vel := ⟨some 0, some 0⟩, res := ⟨some 0, some 0⟩, rect := ⟨0, 0, 0, 0⟩
    is_button_scrolling := false, cancel_pending := false }

/-- One synthetic `MOUSEINPUT` entry of a `SendInput` batch (only the fields
the program sets: `mouse_data` and `dw_flags`; 0x0800 = `MOUSEEVENTF_WHEEL`,
0x1000 = `MOUSEEVENTF_HWHEEL`). -/
structure MInput where
  mouse_data : ℤ
  dw_flags : ℕ
  deriving DecidableEq

/-- Observable OS calls made by the capture thread, in program order. -/
inductive OsAct where
  | clipSet (r : Rect)
  | clipClear
  | setTimerA
  | killTimerA
  | sendBatch (batch : List MInput)
  | sendCancelKeys
  | postHookQuit
  | unregisterRaw
  | destroyWin
  | postRawStopped
  deriving DecidableEq

/-- The engine tick `State::step`: defensive re-assertion of the clip rectangle while
dragging, then the leaky-integrator update.  `curClip` is what
`GetClipCursor` reports (the tracked clip rectangle, or the screen bounds when
no confinement is set).  The source wraps the returned step in `Some`, which
`raw_main` immediately unwraps; the `Option` layer is elided here.  Note the
source computes `f1 = (1.0 - f0) / mu` unconditionally — there is no special
case for `mu = 0`, where the division is `0.0 / 0.0`. -/
noncomputable def State.step (cfg : Config) (s : State) (acu : Vec2i)
    (tick freq : ℕ) (curClip : Rect) : State × Vec2f × List OsAct :=
  let acts := if s.is_button_scrolling ∧ curClip ≠ s.rect
              then [OsAct.clipSet s.rect] else []
  let dx := fmul (i2f cfg.sens_x) (i2f acu.x)
  let dy := fmul (i2f cfg.sens_y) (i2f acu.y)
  let vx := fadd s.vel.x dx
  let vy := fadd s.vel.y dy
  let dt := fdiv (n2f tick) (n2f freq)
  let mu := i2f cfg.decay
  let f0 := fexp (fmul (fneg dt) mu)
  let f1 := fdiv (fsub (some 1) f0) mu
  let sendx := fmul vx f1
  let sendy := fmul vy f1
  let vx2 := fmul vx f0
  let vy2 := fmul vy f0
  let velNext :=
    if flt (fadd (fmul vx2 vx2) (fmul vy2 vy2)) (some (1 / 10))
    then Vec2f.mk (some 0) (some 0) else Vec2f.mk vx2 vy2
  ({ s with vel := velNext }, ⟨sendx, sendy⟩, acts)

/-- The output stage `State::flush` (takes `&mut self` but reads no state): truncate the step
with `as i32`; return early when both components truncate to 0; otherwise
build one `INPUT` per non-zero axis (vertical wheel first, then horizontal)
and submit them in a single `SendInput` call. -/
noncomputable def flush (delta : Vec2f) : List OsAct :=
  let sx := f2i delta.x
  let sy := f2i delta.y
  if sx = 0 ∧ sy = 0 then []
  else
    let inputs := (if sy ≠ 0 then [MInput.mk sy 0x0800] else [])
                  ++ (if sx ≠ 0 then [MInput.mk sx 0x1000] else [])
    if inputs.isEmpty then [] else [OsAct.sendBatch inputs]

/-- Repeated engine ticks with zero accumulated input: each iteration runs
`State::step` on a zero delta and then `State::flush` on the produced step,
exactly as one pass of the tick handler in `raw_main` does; the emitted `SendInput`
actions of all iterations are collected. -/
noncomputable def zeroTicks (cfg : Config) (tick freq : ℕ) (cur : Rect) :
    ℕ → State → State × List OsAct
  | 0, s => (s, [])
  | n + 1, s =>
    let p := State.step cfg s ⟨0, 0⟩ tick freq cur
    let e := flush p.2.1
    let q := zeroTicks cfg tick freq cur n p.1
    (q.1, e ++ q.2)

-- ---------------------------------------------------------------------------
-- Capture loop (raw_main)
-- ---------------------------------------------------------------------------

/-- The fields of a decoded `RAWINPUT` mouse packet that `raw_main` reads.
`h_device_null` models `data.header.h_device.is_null()`. -/
structure RawMouse where
  us_button_flags : ℕ
  us_button_data : ℤ
  l_last_x : ℤ
  l_last_y : ℤ
  h_device_null : Bool
  deriving DecidableEq

/-- One message taken from the queue of the capture thread: the readiness
signal of the hook worker (`WM_HOOK_STARTED`), a raw-input message (0xff with a
successfully decoded mouse packet), or any other message (for example
`WM_TIMER`), which only wakes the loop. -/
inductive LoopMsg where
  | hookStarted
  | rawInput (r : RawMouse)
  | wake
  deriving DecidableEq

/-- The inputs of one loop iteration: the dequeued message, the
`QueryPerformanceCounter` reading at the bottom of the iteration, and the
`GetCursorPos` result (consulted only on button-down). -/
structure Iter where
  msg : LoopMsg
  now : ℕ
  cursor : ℤ × ℤ
  deriving DecidableEq

/-- The local state of the message loop in `raw_main`.  `timer` is 0 when no tick
timer is installed (a fresh `SetTimer` id is modelled as 1); `clip` mirrors
the OS pointer-confinement rectangle (`none` = unconfined), assuming no
external agent changes it. -/
structure LoopSt where
  hook_active : Bool
  st : State
  timer : ℕ
  scroll_acu : Vec2i
  past : ℕ
  unclip_pending : Bool
  clip : Option Rect

/-- The loop state right before the first `GetMessageA` call, with `past0` the
initial `QueryPerformanceCounter` reading. -/
def LoopSt.init (past0 : ℕ) : LoopSt :=
  { hook_active := false, st := State.new, timer := 0, scroll_acu := ⟨0, 0⟩
    past := past0, unclip_pending := false, clip := none }

/-- Effect of one `OsAct` on the OS pointer-confinement state. -/
def applyClip (c : Option Rect) (a : OsAct) : Option Rect :=
  match a with
  | OsAct.clipSet r => some r
  | OsAct.clipClear => none
  | _ => c

/-- The wheel branch (`flags & RI_MOUSE_WHEEL != 0`): the tick count is scaled
by `sens_y / 120` in f32, truncated with `as i32`, and added to the vertical
accumulator; the tick timer is started if not yet running. -/
noncomputable def handleWheel (cfg : Config) (ls : LoopSt) (delta : ℤ) :
    LoopSt × List OsAct :=
  let inc := f2i (fdiv (fmul (i2f delta) (i2f cfg.sens_y)) (i2f 120))
  let acu := Vec2i.mk ls.scroll_acu.x (ls.scroll_acu.y + inc)
  if ls.timer = 0 then ({ ls with scroll_acu := acu, timer := 1 }, [OsAct.setTimerA])
  else ({ ls with scroll_acu := acu }, [])

/-- The button-down branch (`flags & 16 == 16`): start the drag gesture,
reset the accumulator, confine the pointer to a 1×1 rectangle at the cursor,
and start the tick timer if not yet running. -/
def handleButtonDown (ls : LoopSt) (cursor : ℤ × ℤ) : LoopSt × List OsAct :=
  let r := Rect.mk cursor.1 cursor.2 (cursor.1 + 1) (cursor.2 + 1)
  let st1 := { ls.st with is_button_scrolling := true, cancel_pending := true, rect := r }
  let base := { ls with st := st1, scroll_acu := ⟨0, 0⟩, clip := some r }
  if ls.timer = 0
  then ({ base with timer := 1 }, [OsAct.clipSet r, OsAct.setTimerA])
  else (base, [OsAct.clipSet r])

/-- The button-up branch (`flags & 32 == 32`): end the drag; when `flick` is
disabled zero the velocity and residual and kill the tick timer (`KillTimer`
success is modelled, setting the id back to 0); emit the benign cancel
keystroke pair when `cancel_pending` was set; finally release the pointer
confinement.  The per-tick accumulator `scroll_acu` is not touched. -/
def handleButtonUp (cfg : Config) (ls : LoopSt) : LoopSt × List OsAct :=
  let st1 := { ls.st with is_button_scrolling := false }
  let p1 :=
    if cfg.flick = 0
    then (({ st1 with vel := ⟨some 0, some 0⟩, res := ⟨some 0, some 0⟩ } : State),
          0, [OsAct.killTimerA])
    else (st1, ls.timer, ([] : List OsAct))
  let p2 :=
    if p1.1.cancel_pending
    then ({ p1.1 with cancel_pending := false }, [OsAct.sendCancelKeys])
    else (p1.1, ([] : List OsAct))
  ({ ls with st := p2.1, timer := p1.2.1, clip := none },
    p1.2.2 ++ p2.2 ++ [OsAct.clipClear])

/-- The dispatch over `us_button_flags` for a mouse packet from a real device
(`h_device` non-null), in source order: wheel, button-down, button-up, and
plain motion (accumulated only while dragging). -/
noncomputable def handleInput (cfg : Config) (ls : LoopSt) (r : RawMouse)
    (cursor : ℤ × ℤ) : LoopSt × List OsAct :=
  if r.us_button_flags &&& 0x400 ≠ 0 then handleWheel cfg ls r.us_button_data
  else if r.us_button_flags &&& 16 = 16 then handleButtonDown ls cursor
  else if r.us_button_flags &&& 32 = 32 then handleButtonUp cfg ls
  else if r.us_button_flags = 0 ∧ ls.st.is_button_scrolling then
    ({ ls with scroll_acu := ⟨ls.scroll_acu.x + r.l_last_x, ls.scroll_acu.y + r.l_last_y⟩ }, [])
  else (ls, [])

/-- The fixed-interval tick at the bottom of the loop body: when the
wall-clock elapsed time exceeds the 10 ms interval, drain the accumulator
through `State::step`, flush the emitted step, reset the accumulator and
rebase `past`.  `screen` is what `GetClipCursor` reports when no confinement
is active. -/
noncomputable def tickCheck (cfg : Config) (qpf : ℕ) (screen : Rect)
    (ls : LoopSt) (now : ℕ) : LoopSt × List OsAct :=
  if (now - ls.past) * 1000 > qpf * 10 then
    let p := State.step cfg ls.st ls.scroll_acu (now - ls.past) qpf (ls.clip.getD screen)
    let a2 := flush p.2.1
    ({ ls with st := p.1, scroll_acu := ⟨0, 0⟩, past := now
               clip := p.2.2.foldl applyClip ls.clip },
      p.2.2 ++ a2)
  else (ls, [])

/-- One iteration of the `while GetMessageA` body in `raw_main`.  Until the hook
worker signals readiness every message only (possibly) flips `hook_active`
and the iteration `continue`s.  A packet whose `h_device` is null is handled
by the dead `unclip_pending` path and also `continue`s.  All other paths fall
through to the tick check. -/
noncomputable def loopBody (cfg : Config) (qpf : ℕ) (screen : Rect)
    (ls : LoopSt) (it : Iter) : LoopSt × List OsAct :=
  if ls.hook_active then
    match it.msg with
    | LoopMsg.rawInput r =>
      if r.h_device_null then
        if ls.unclip_pending ∧ r.us_button_flags &&& 32 = 32 then
          ({ ls with unclip_pending := false, clip := none }, [OsAct.clipClear])
        else (ls, [])
      else
        let p := handleInput cfg ls r it.cursor
        let q := tickCheck cfg qpf screen p.1 it.now
        (q.1, p.2 ++ q.2)
    | _ => tickCheck cfg qpf screen ls it.now
  else
    ((match it.msg with
      | LoopMsg.hookStarted => { ls with hook_active := true }
      | _ => ls), [])

/-- The message loop of `raw_main`, folded over the dequeued iterations (the
list ends when `GetMessageA` returns 0 on the posted `WM_QUIT`). -/
noncomputable def runLoop (cfg : Config) (qpf : ℕ) (screen : Rect) :
    LoopSt → List Iter → LoopSt × List OsAct
  | ls, [] => (ls, [])
  | ls, it :: rest =>
    let p := loopBody cfg qpf screen ls it
    let q := runLoop cfg qpf screen p.1 rest
    (q.1, p.2 ++ q.2)

/-- The scoped-cleanup (`defer`) blocks of `raw_main`, run in reverse
declaration order once the message loop exits: stop and join the hook worker,
unregister the raw-input device, destroy the hidden window, and post
`WM_RAW_STOPPED` to the main thread.  No `ClipCursor` call appears among
them. -/
def exitActs : List OsAct :=
  [OsAct.postHookQuit, OsAct.unregisterRaw, OsAct.destroyWin, OsAct.postRawStopped]

/-- A full run of `raw_main` past its successful startup: the message loop
over `iters` followed by the teardown defers. -/
noncomputable def raw_main_run (cfg : Config) (qpf : ℕ) (screen : Rect)
    (ls0 : LoopSt) (iters : List Iter) : LoopSt × List OsAct :=
  let p := runLoop cfg qpf screen ls0 iters
  (p.1, p.2 ++ exitActs)

-- ---------------------------------------------------------------------------
-- Helper lemmas
-- ---------------------------------------------------------------------------

@[simp] theorem fadd_some (a b : ℝ) : fadd (some a) (some b) = some (a + b) := rfl

@[simp] theorem fsub_some (a b : ℝ) : fsub (some a) (some b) = some (a - b) := rfl

@[simp] theorem fmul_some (a b : ℝ) : fmul (some a) (some b) = some (a * b) := rfl

@[simp] theorem fmul_none (a : F) : fmul a none = none := by
  cases a <;> rfl

@[simp] theorem fneg_some (a : ℝ) : fneg (some a) = some (-a) := rfl

@[simp] theorem fdiv_some (a b : ℝ) :
    fdiv (some a) (some b) = if b = 0 then none else some (a / b) := rfl

@[simp] theorem fexp_some (a : ℝ) : fexp (some a) = some (Real.exp a) := rfl

@[simp] theorem flt_some (a b : ℝ) : flt (some a) (some b) = decide (a < b) := rfl

@[simp] theorem f2i_none : f2i none = 0 := rfl

theorem f2i_some (x : ℝ) :
    f2i (some x) = max (-(2 ^ 31)) (min (2 ^ 31 - 1) (if 0 ≤ x then ⌊x⌋ else ⌈x⌉)) := rfl

/-- Truncation of a finite float of magnitude below one is zero. -/
theorem f2i_eq_zero_of_abs_lt_one {x : ℝ} (h : |x| < 1) : f2i (some x) = 0 := by
  have h1 : x < 1 := lt_of_le_of_lt (le_abs_self x) h
  have h2 : -1 < x := neg_lt_of_abs_lt h
  rcases le_or_lt 0 x with hx | hx
  · have hz : ⌊x⌋ = 0 := Int.floor_eq_zero_iff.mpr ⟨hx, h1⟩
    simp [f2i_some, hx, hz]
  · have hz : ⌈x⌉ = 0 := by
      rw [Int.ceil_eq_zero_iff]
      exact ⟨h2, le_of_lt hx⟩
    simp [f2i_some, not_le.mpr hx, hz]

/-- Truncation of a finite float in `[n, n+1)` for `0 ≤ n ≤ 2^31 - 1` is `n`. -/
theorem f2i_eq_of_between {x : ℝ} {n : ℤ} (h0 : 0 ≤ n) (hn : (n : ℝ) ≤ x)
    (hn1 : x < (n : ℝ) + 1) (hsat : n ≤ 2 ^ 31 - 1) : f2i (some x) = n := by
  have hx : 0 ≤ x := le_trans (by exact_mod_cast h0) hn
  have hfl : ⌊x⌋ = n := Int.floor_eq_iff.mpr ⟨hn, hn1⟩
  have hlo : -(2 ^ 31) ≤ n := le_trans (by norm_num) h0
  simp only [f2i_some, hx, if_true, hfl]
  rw [min_eq_right hsat, max_eq_right hlo]

-- ---------------------------------------------------------------------------
-- C5 / C9: the suppression filter
-- ---------------------------------------------------------------------------

/-- Claim C5: while the suppression filter is installed, every trigger-button
(middle-button) down/up event whose `dw_extra_info` tag does not equal the
marker value is swallowed (never forwarded to the next hook), and every
forwarded event is passed to `CallNextHookEx` with all arguments unchanged
(bit-identical). -/
theorem hook_swallows_unmarked_and_forwards_identically
    (pass : ℕ) (code : ℤ) (w_param : ℕ) (ev : MSLL) :
    ((w_param = 0x207 ∨ w_param = 0x208) → ev.dw_extra_info ≠ pass →
      hook_proc pass code w_param ev = HookRes.swallowed) ∧
    (∀ c w e, hook_proc pass code w_param ev = HookRes.forwarded c w e →
      c = code ∧ w = w_param ∧ e = ev) := by
  constructor
  · intro ht hne
    simp [hook_proc, ht, hne]
  · intro c w e h
    unfold hook_proc at h
    by_cases h1 : w_param = 0x207 ∨ w_param = 0x208
    · simp only [h1, if_true] at h
      by_cases h2 : ev.flags &&& 3 = 0 ∨ ev.dw_extra_info ≠ pass
      · simp [h2] at h
      · simp only [h2, if_false] at h
        cases h
        exact ⟨rfl, rfl, rfl⟩
    · simp only [h1, if_false] at h
      cases h
      exact ⟨rfl, rfl, rfl⟩

/-- Witness for C5: a middle-button-down event tagged 4 while the marker is 5
is swallowed. -/
theorem hook_swallows_unmarked_witness :
    (((0x207 : ℕ) = 0x207 ∨ (0x207 : ℕ) = 0x208) ∧ (4 : ℕ) ≠ 5) ∧
    hook_proc 5 0 0x207 (MSLL.mk 0 0 0 3 0 4) = HookRes.swallowed :=
  ⟨⟨Or.inl rfl, by decide⟩,
    (hook_swallows_unmarked_and_forwards_identically 5 0 0x207
      (MSLL.mk 0 0 0 3 0 4)).1 (Or.inl rfl) (by decide)⟩

/-- Claim C9 (implicit): the filter forwards a trigger-button down/up event
only when, besides carrying the marker in `dw_extra_info`, its low two flag
bits are non-zero; a marked event with `flags & 3 == 0` is still swallowed,
and any other message value is always passed through unchanged. -/
theorem hook_requires_injected_flags
    (pass : ℕ) (code : ℤ) (w_param : ℕ) (ev : MSLL) :
    ((w_param = 0x207 ∨ w_param = 0x208) → ev.dw_extra_info = pass →
      ev.flags &&& 3 = 0 → hook_proc pass code w_param ev = HookRes.swallowed) ∧
    ((w_param = 0x207 ∨ w_param = 0x208) → ev.dw_extra_info = pass →
      ev.flags &&& 3 ≠ 0 →
      hook_proc pass code w_param ev = HookRes.forwarded code w_param ev) ∧
    (¬(w_param = 0x207 ∨ w_param = 0x208) →
      hook_proc pass code w_param ev = HookRes.forwarded code w_param ev) := by
  refine ⟨fun ht _ hf => ?_, fun ht hm hf => ?_, fun ht => ?_⟩
  · simp [hook_proc, ht, hf]
  · simp [hook_proc, ht, hm, hf]
  · simp [hook_proc, ht]

/-- Witness for C9: a marked middle-button-up event with zero low flag bits is
swallowed even though it carries the marker. -/
theorem hook_requires_injected_flags_witness :
    (((0x208 : ℕ) = 0x207 ∨ (0x208 : ℕ) = 0x208) ∧ (4 : ℕ) &&& 3 = 0) ∧
    hook_proc 7 0 0x208 (MSLL.mk 0 0 0 4 0 7) = HookRes.swallowed :=
  ⟨⟨Or.inr rfl, by decide⟩,
    (hook_requires_injected_flags 7 0 0x208 (MSLL.mk 0 0 0 4 0 7)).1
      (Or.inr rfl) rfl (by decide)⟩

-- ---------------------------------------------------------------------------
-- C6: resume while a stop is pending restarts exactly once
-- ---------------------------------------------------------------------------

/-- Claim C6: calling resume (command 105) while a stop (command 104) is
already pending results in exactly one restart of the capture thread: the
resume sets the pending flag before posting the quit signal (and posts
nothing else), and the `WM_RAW_STOPPED` handler clears the flag and starts
exactly one new capture thread — also when the resume is repeated while the
same stop is in flight. -/
theorem resume_during_stop_restarts_once (c : Coord)
    (h : c.raw_handle.isSome = true) :
    (on_wm_command 105 (on_wm_command 104 c).1).1.pending = true ∧
    (on_wm_command 105 (on_wm_command 104 c).1).2 = [CoordAct.postQuitRaw] ∧
    (on_raw_stopped (on_wm_command 105 (on_wm_command 104 c).1).1).1.started
      = c.started + 1 ∧
    (on_raw_stopped (on_wm_command 105 (on_wm_command 104 c).1).1).1.pending
      = false ∧
    (on_raw_stopped (on_wm_command 105 (on_wm_command 104 c).1).1).2
      = [CoordAct.startRawThread] ∧
    (on_raw_stopped (on_wm_command 105 (on_wm_command 105
        (on_wm_command 104 c).1).1).1).1.started = c.started + 1 := by
  obtain ⟨a, ha⟩ := Option.isSome_iff_exists.mp h
  simp [on_wm_command, on_raw_stopped, start_thread, ha]

/-- Witness for C6 at a concrete coordinator state. -/
theorem resume_during_stop_restarts_once_witness :
    (Coord.mk (some 1) false 0).raw_handle.isSome = true ∧
    (on_raw_stopped (on_wm_command 105 (on_wm_command 104
        (Coord.mk (some 1) false 0)).1).1).1.started = 0 + 1 :=
  ⟨rfl, (resume_during_stop_restarts_once (Coord.mk (some 1) false 0) rfl).2.2.1⟩

-- ---------------------------------------------------------------------------
-- C8: flush truncates and batches per axis
-- ---------------------------------------------------------------------------

/-- Claim C8: every emitted step is truncated to integer scroll units; if the
truncated step is `(0, 0)` no synthetic event is injected (no-op tick), and
otherwise exactly one batched `SendInput` call is issued containing one
scroll-wheel entry per non-zero axis (vertical first, then horizontal). -/
theorem flush_truncates_and_batches (d : Vec2f) :
    ((f2i d.x = 0 ∧ f2i d.y = 0) → flush d = []) ∧
    (¬(f2i d.x = 0 ∧ f2i d.y = 0) →
      flush d = [OsAct.sendBatch
        ((if f2i d.y ≠ 0 then [MInput.mk (f2i d.y) 0x0800] else [])
          ++ (if f2i d.x ≠ 0 then [MInput.mk (f2i d.x) 0x1000] else []))]) := by
  constructor
  · intro h
    simp [flush, h.1, h.2]
  · intro h
    by_cases hx : f2i d.x = 0 <;> by_cases hy : f2i d.y = 0
    · exact absurd ⟨hx, hy⟩ h
    · simp [flush, hx, hy]
    · simp [flush, hx, hy]
    · simp [flush, hx, hy]

/-- Witness for C8: a step of `(2.5, -3.7)` truncates to `(2, -3)` and is
injected as a single batch with a vertical entry `-3` and a horizontal
entry `2`. -/
theorem flush_truncates_and_batches_witness :
    ¬(f2i (some ((5 : ℝ) / 2)) = 0 ∧ f2i (some (-(37 : ℝ) / 10)) = 0) ∧
    flush ⟨some ((5 : ℝ) / 2), some (-(37 : ℝ) / 10)⟩ =
      [OsAct.sendBatch [MInput.mk (-3) 0x0800, MInput.mk 2 0x1000]] := by
  have hx : f2i (some ((5 : ℝ) / 2)) = 2 :=
    f2i_eq_of_between (by norm_num) (by norm_num) (by norm_num) (by norm_num)
  have hy : f2i (some (-(37 : ℝ) / 10)) = -3 := by
    have hc : ⌈(-(37 : ℝ) / 10)⌉ = -3 := by
      rw [Int.ceil_eq_iff]
      constructor <;> norm_num
    rw [f2i_some, if_neg (by norm_num), hc]
    norm_num
  have hne : ¬(f2i (some ((5 : ℝ) / 2)) = 0 ∧ f2i (some (-(37 : ℝ) / 10)) = 0) := by
    rw [hx]
    simp
  refine ⟨hne, ?_⟩
  have happ := (flush_truncates_and_batches
    ⟨some ((5 : ℝ) / 2), some (-(37 : ℝ) / 10)⟩).2 hne
  rw [happ]
  rw [show (Vec2f.mk (some ((5 : ℝ) / 2)) (some (-(37 : ℝ) / 10))).x
        = some ((5 : ℝ) / 2) from rfl,
      show (Vec2f.mk (some ((5 : ℝ) / 2)) (some (-(37 : ℝ) / 10))).y
        = some (-(37 : ℝ) / 10) from rfl, hx, hy]
  norm_num

-- ---------------------------------------------------------------------------
-- C10: sub-notch wheel input is truncated away at accumulation
-- ---------------------------------------------------------------------------

/-- Claim C10 (implicit): the contribution of a wheel notification
`delta * sens_y / 120` is truncated toward zero to an integer before being
added to the per-tick accumulator, so whenever `|delta * sens_y| < 120` the
accumulator is unchanged — the fractional part is discarded, not carried
over. -/
theorem wheel_below_one_notch_discarded (cfg : Config) (ls : LoopSt) (delta : ℤ)
    (h : |delta * cfg.sens_y| < 120) :
    (handleWheel cfg ls delta).1.scroll_acu = ls.scroll_acu := by
  have hval : fdiv (fmul (i2f delta) (i2f cfg.sens_y)) (i2f 120)
      = some ((delta : ℝ) * (cfg.sens_y : ℝ) / 120) := by
    simp [i2f, fdiv, fmul]
  have habs : |(delta : ℝ) * (cfg.sens_y : ℝ) / 120| < 1 := by
    rw [abs_div]
    rw [div_lt_one (by norm_num : (0 : ℝ) < |(120 : ℝ)|)]
    have h2 : ((|delta * cfg.sens_y| : ℤ) : ℝ) < ((120 : ℤ) : ℝ) := by
      exact_mod_cast h
    rw [Int.cast_abs] at h2
    push_cast at h2
    calc |(delta : ℝ) * (cfg.sens_y : ℝ)| < 120 := h2
      _ ≤ |(120 : ℝ)| := le_abs_self _
  have hinc : f2i (fdiv (fmul (i2f delta) (i2f cfg.sens_y)) (i2f 120)) = 0 := by
    rw [hval]
    exact f2i_eq_zero_of_abs_lt_one habs
  unfold handleWheel
  by_cases ht : ls.timer = 0 <;> simp [ht, hinc]

/-- Witness for C10: one notch (`delta = 119`) at `sens_y = 1` leaves the
accumulator untouched. -/
theorem wheel_below_one_notch_discarded_witness :
    |(119 : ℤ) * (Config.mk 3 1 0 120 120 0 0).sens_y| < 120 ∧
    (handleWheel (Config.mk 3 1 0 120 120 0 0) (LoopSt.init 0) 119).1.scroll_acu
      = (LoopSt.init 0).scroll_acu :=
  ⟨by decide,
    wheel_below_one_notch_discarded (Config.mk 3 1 0 120 120 0 0)
      (LoopSt.init 0) 119 (by decide)⟩

-- ---------------------------------------------------------------------------
-- C4: button-up with momentum-on-lift disabled
-- ---------------------------------------------------------------------------

/-- Counterexample to C4 as stated: on button-up with `flick = 0`, the
per-tick accumulator is *not* zeroed — from accumulator `(5, 7)` the handler
leaves `(5, 7)` behind (the claim asserts it is zeroed together with the
velocity and residual). -/
theorem button_up_keeps_accumulator :
    (handleButtonUp defaultConfig
      (LoopSt.mk true
        (State.mk ⟨some 3, some 4⟩ ⟨some 0, some 0⟩ (Rect.mk 9 9 10 10) true true)
        1 (Vec2i.mk 5 7) 0 false (some (Rect.mk 9 9 10 10)))).1.scroll_acu
      ≠ Vec2i.mk 0 0 := by
  simp [handleButtonUp, defaultConfig]

/-- Claim C4 as amended: on button-up of the trigger button with
momentum-on-lift (`flick`) disabled, the velocity vector and the residual
vector are zeroed, the tick timer is stopped, the drag flag is cleared and
the pointer confinement is released — but the per-tick accumulator is left
unchanged (it is reset at button-down and after each tick drain instead). -/
theorem button_up_resets_velocity_and_unclips (cfg : Config) (ls : LoopSt)
    (h : cfg.flick = 0) :
    (handleButtonUp cfg ls).1.st.vel = Vec2f.mk (some 0) (some 0) ∧
    (handleButtonUp cfg ls).1.st.res = Vec2f.mk (some 0) (some 0) ∧
    (handleButtonUp cfg ls).1.timer = 0 ∧
    (handleButtonUp cfg ls).1.st.is_button_scrolling = false ∧
    (handleButtonUp cfg ls).1.clip = none ∧
    OsAct.clipClear ∈ (handleButtonUp cfg ls).2 ∧
    (handleButtonUp cfg ls).1.scroll_acu = ls.scroll_acu := by
  by_cases hc : ls.st.cancel_pending <;>
    simp [handleButtonUp, h, hc]

/-- Witness for the amended claim C4 at a concrete dragging state. -/
theorem button_up_resets_velocity_and_unclips_witness :
    defaultConfig.flick = 0 ∧
    (handleButtonUp defaultConfig
      (LoopSt.mk true
        (State.mk ⟨some 3, some 4⟩ ⟨some 0, some 0⟩ (Rect.mk 9 9 10 10) true true)
        1 (Vec2i.mk 5 7) 0 false (some (Rect.mk 9 9 10 10)))).1.timer = 0 :=
  ⟨rfl,
    (button_up_resets_velocity_and_unclips defaultConfig
      (LoopSt.mk true
        (State.mk ⟨some 3, some 4⟩ ⟨some 0, some 0⟩ (Rect.mk 9 9 10 10) true true)
        1 (Vec2i.mk 5 7) 0 false (some (Rect.mk 9 9 10 10))) rfl).2.2.1⟩

-- ---------------------------------------------------------------------------
-- C2: pointer confinement across exit paths
-- ---------------------------------------------------------------------------

/-- Evaluation of the failing scenario of C2: the hook worker signals readiness, a
trigger-button-down starts a drag (confining the pointer to the 1×1 rectangle
at the cursor), and then the quit signal ends the message loop.  After the
loop and all teardown defers of `raw_main`, the confinement rectangle is
still set and no `ClipCursor(NULL)` call appears anywhere in the run — the
pointer is left clipped, contradicting the claim that every exit path clears
it.  (The `unclip_pending` flag that could drive a deferred unclip is never
set to true anywhere in the source.) -/
theorem quit_during_drag_leaves_pointer_clipped :
    (raw_main_run defaultConfig 10000000 (Rect.mk 0 0 1920 1080) (LoopSt.init 0)
      [Iter.mk LoopMsg.hookStarted 0 (0, 0),
       Iter.mk (LoopMsg.rawInput (RawMouse.mk 16 0 0 0 false)) 0 (100, 200)]).1.clip
      = some (Rect.mk 100 200 101 201) ∧
    OsAct.clipClear ∉
      (raw_main_run defaultConfig 10000000 (Rect.mk 0 0 1920 1080) (LoopSt.init 0)
        [Iter.mk LoopMsg.hookStarted 0 (0, 0),
         Iter.mk (LoopMsg.rawInput (RawMouse.mk 16 0 0 0 false)) 0 (100, 200)]).2 := by
  constructor <;>
    simp [raw_main_run, runLoop, loopBody, handleInput, handleButtonDown,
      tickCheck, LoopSt.init, State.new, exitActs, defaultConfig,
      (by decide : (16 : ℕ) &&& 1024 = 0), (by decide : (16 : ℕ) &&& 16 = 16)]

-- ---------------------------------------------------------------------------
-- C1: no special case for decay-rate 0
-- ---------------------------------------------------------------------------

/-- Evaluation of the failing scenario of C1: with `decay = 0` (which the
`.max(0)` clamp in `start_thread` admits) the engine computes
`f0 = exp(-0) = 1` but then `f1 = (1 - 1) / 0 = 0/0`, a NaN — there is no
`mu = 0` special case.  At a tick with accumulated wheel input the emitted
step is therefore non-finite on both axes, `flush` truncates it to `(0, 0)`
and injects nothing, while the velocity persists at 324 — instead of the
claimed limiting behaviour `f1 = dt` emitting `v * dt = 3.24` (truncating to
3 scroll units). -/
theorem mu_zero_step_is_nan :
    (State.step (loadConfig 0 18 0 120 120 0 0) State.new ⟨0, 18⟩ 1 100
        (Rect.mk 0 0 1920 1080)).2.1.x = none ∧
    (State.step (loadConfig 0 18 0 120 120 0 0) State.new ⟨0, 18⟩ 1 100
        (Rect.mk 0 0 1920 1080)).2.1.y = none ∧
    (State.step (loadConfig 0 18 0 120 120 0 0) State.new ⟨0, 18⟩ 1 100
        (Rect.mk 0 0 1920 1080)).1.vel.y = some 324 ∧
    flush (State.step (loadConfig 0 18 0 120 120 0 0) State.new ⟨0, 18⟩ 1 100
        (Rect.mk 0 0 1920 1080)).2.1 = [] := by
  norm_num [State.step, loadConfig, State.new, flush, i2f, n2f, fdiv, fmul,
    fadd, fneg, fexp, fsub, flt_some, Real.exp_zero, f2i]

-- ---------------------------------------------------------------------------
-- C3: the one-notch wheel scenario
-- ---------------------------------------------------------------------------

/-- Bracketing `exp(-0.03)` between 26/27 and 35/36, from `x + 1 ≤ exp x`. -/
theorem exp_neg_003_bounds :
    26 / 27 < Real.exp (-(3 / 100 : ℝ)) ∧ Real.exp (-(3 / 100 : ℝ)) < 35 / 36 := by
  constructor
  · have h := Real.add_one_le_exp (-(3 / 100) : ℝ)
    linarith
  · have h := Real.add_one_le_exp ((3 / 100) : ℝ)
    have h2 : ((103 : ℝ) / 100) ≤ Real.exp ((3 : ℝ) / 100) := by linarith
    have h3 : (Real.exp ((3 : ℝ) / 100))⁻¹ ≤ ((103 : ℝ) / 100)⁻¹ :=
      inv_anti₀ (by norm_num) h2
    rw [Real.exp_neg]
    calc (Real.exp ((3 : ℝ) / 100))⁻¹ ≤ ((103 : ℝ) / 100)⁻¹ := h3
      _ < 35 / 36 := by norm_num

/-- The emitted vertical step of the one-notch scenario (`sens_y = 18`,
`decay = 3`, accumulator 18, first tick at `dt = 1/100 s`): the velocity
gains `18 · 18 = 324` (sensitivity is applied a second time inside the
engine) and the step is `324 · (1 - e^{-0.03}) / 3`. -/
theorem scenario_send_y :
    (State.step defaultConfig State.new ⟨0, 18⟩ 1 100
        (Rect.mk 0 0 1920 1080)).2.1.y
      = some ((0 + 18 * 18) * ((1 - Real.exp (-(3 / 100 : ℝ))) / 3)) := by
  norm_num [State.step, defaultConfig, State.new, i2f, n2f, fdiv, fmul,
    fadd, fneg, fexp, fsub]

/-- The emitted horizontal step of the one-notch scenario is zero. -/
theorem scenario_send_x :
    (State.step defaultConfig State.new ⟨0, 18⟩ 1 100
        (Rect.mk 0 0 1920 1080)).2.1.x = some 0 := by
  norm_num [State.step, defaultConfig, State.new, i2f, n2f, fdiv, fmul,
    fadd, fneg, fexp, fsub]

/-- The truncation of the vertical step in the scenario is 3, not 0. -/
theorem scenario_send_y_truncates_to_three :
    f2i (State.step defaultConfig State.new ⟨0, 18⟩ 1 100
        (Rect.mk 0 0 1920 1080)).2.1.y = 3 := by
  obtain ⟨hlo, hhi⟩ := exp_neg_003_bounds
  rw [scenario_send_y]
  apply f2i_eq_of_between (by norm_num)
  · nlinarith
  · nlinarith
  · norm_num

/-- Counterexample to C3 as stated: on the one-notch scenario the emitted
vertical step truncates to 3 (not 0) and a synthetic scroll event *is*
injected on that tick. -/
theorem wheel_scenario_emits :
    f2i (State.step defaultConfig State.new ⟨0, 18⟩ 1 100
        (Rect.mk 0 0 1920 1080)).2.1.y ≠ 0 ∧
    flush (State.step defaultConfig State.new ⟨0, 18⟩ 1 100
        (Rect.mk 0 0 1920 1080)).2.1 ≠ [] := by
  have hy := scenario_send_y_truncates_to_three
  have hx : f2i (State.step defaultConfig State.new ⟨0, 18⟩ 1 100
      (Rect.mk 0 0 1920 1080)).2.1.x = 0 := by
    rw [scenario_send_x]
    apply f2i_eq_zero_of_abs_lt_one
    norm_num
  refine ⟨by rw [hy]; norm_num, ?_⟩
  simp [flush, hx, hy]

/-- Claim C3 as amended: a wheel-tick of value 120 at `sens_y = 18` adds 18
to the accumulator (the 120-normalization), but the accumulator then
contributes `18 · 18 = 324` to the velocity because the sensitivity is
applied a second time inside the engine; the first tick at `dt = 0.01 s`
with `μ = 3` emits `send_y = 324 · (1 - e^{-0.03}) / 3 ≈ 3.19`, which
truncates to 3, so a single vertical scroll event of 3 units is emitted on
that tick. -/
theorem wheel_scenario_amended :
    (handleWheel defaultConfig (LoopSt.init 0) 120).1.scroll_acu = Vec2i.mk 0 18 ∧
    (State.step defaultConfig State.new ⟨0, 18⟩ 1 100
        (Rect.mk 0 0 1920 1080)).2.1.y
      = some ((0 + 18 * 18) * ((1 - Real.exp (-(3 / 100 : ℝ))) / 3)) ∧
    f2i (State.step defaultConfig State.new ⟨0, 18⟩ 1 100
        (Rect.mk 0 0 1920 1080)).2.1.y = 3 ∧
    flush (State.step defaultConfig State.new ⟨0, 18⟩ 1 100
        (Rect.mk 0 0 1920 1080)).2.1 = [OsAct.sendBatch [MInput.mk 3 0x0800]] := by
  have hy := scenario_send_y_truncates_to_three
  have hx : f2i (State.step defaultConfig State.new ⟨0, 18⟩ 1 100
      (Rect.mk 0 0 1920 1080)).2.1.x = 0 := by
    rw [scenario_send_x]
    apply f2i_eq_zero_of_abs_lt_one
    norm_num
  refine ⟨?_, scenario_send_y, hy, ?_⟩
  · have hacc : f2i (fdiv (fmul (i2f 120) (i2f defaultConfig.sens_y)) (i2f 120))
        = 18 := by
      have hv : fdiv (fmul (i2f 120) (i2f defaultConfig.sens_y)) (i2f 120)
          = some 18 := by
        norm_num [i2f, fdiv, fmul, defaultConfig]
      rw [hv]
      exact f2i_eq_of_between (by norm_num) (by norm_num) (by norm_num) (by norm_num)
    simp [handleWheel, LoopSt.init, hacc]
  · simp [flush, hx, hy]

-- ---------------------------------------------------------------------------
-- C7: idempotence of the rest state
-- ---------------------------------------------------------------------------

/-- A finite send component `v * ((1 - E) / M)` with `v² < 0.1`,
`0 < E ≤ 1` and `1 ≤ M` truncates to zero. -/
theorem send_component_truncates (v E M : ℝ) (hv : v * v < 1 / 10)
    (hE0 : 0 < E) (hE1 : E ≤ 1) (hM : 1 ≤ M) :
    f2i (some (v * ((1 - E) / M))) = 0 := by
  apply f2i_eq_zero_of_abs_lt_one
  rw [abs_mul]
  have hq0 : 0 ≤ (1 - E) / M := div_nonneg (by linarith) (by linarith)
  rw [abs_of_nonneg hq0]
  have hvabs : |v| < 1 := by
    rw [← sq_lt_one_iff_abs_lt_one]
    nlinarith
  have hq1 : (1 - E) / M < 1 := by
    calc (1 - E) / M ≤ 1 - E := div_le_self (by linarith) hM
      _ < 1 := by linarith
  nlinarith [abs_nonneg v]

/-- One engine tick on a zero input delta from a finite velocity below the
rest threshold: the velocity snaps to exactly `(0, 0)` and the flushed step
injects nothing (for `decay = 0` because the step is NaN and truncates to 0,
for `decay ≥ 1` because its magnitude stays below one scroll unit). -/
theorem step_zero_input_rest (cfg : Config) (s : State) (vx vy : ℝ)
    (hs : s.vel = ⟨some vx, some vy⟩)
    (hsmall : vx * vx + vy * vy < 1 / 10)
    (hdecay : 0 ≤ cfg.decay)
    (tick freq : ℕ) (hfreq : freq ≠ 0) (cur : Rect) :
    (State.step cfg s ⟨0, 0⟩ tick freq cur).1.vel = Vec2f.mk (some 0) (some 0) ∧
    flush (State.step cfg s ⟨0, 0⟩ tick freq cur).2.1 = [] := by
  have hfreqR : ((freq : ℝ)) ≠ 0 := Nat.cast_ne_zero.mpr hfreq
  have hd0 : (0 : ℝ) ≤ (tick : ℝ) / (freq : ℝ) := by positivity
  have hm0 : (0 : ℝ) ≤ ((cfg.decay : ℤ) : ℝ) := by exact_mod_cast hdecay
  have he1 : Real.exp (-((tick : ℝ) / (freq : ℝ) * ((cfg.decay : ℤ) : ℝ))) ≤ 1 := by
    apply Real.exp_le_one_iff.mpr
    nlinarith
  have he0 : (0 : ℝ) < Real.exp (-((tick : ℝ) / (freq : ℝ) * ((cfg.decay : ℤ) : ℝ))) :=
    Real.exp_pos _
  have he2 : Real.exp (-((tick : ℝ) / (freq : ℝ) * ((cfg.decay : ℤ) : ℝ)))
      * Real.exp (-((tick : ℝ) / (freq : ℝ) * ((cfg.decay : ℤ) : ℝ))) ≤ 1 :=
    mul_le_one₀ he1 he0.le he1
  constructor
  · have hsnap : vx * Real.exp (-((tick : ℝ) / (freq : ℝ) * ((cfg.decay : ℤ) : ℝ)))
        * (vx * Real.exp (-((tick : ℝ) / (freq : ℝ) * ((cfg.decay : ℤ) : ℝ))))
        + vy * Real.exp (-((tick : ℝ) / (freq : ℝ) * ((cfg.decay : ℤ) : ℝ)))
        * (vy * Real.exp (-((tick : ℝ) / (freq : ℝ) * ((cfg.decay : ℤ) : ℝ)))) < 1 / 10 := by
      nlinarith [mul_nonneg (mul_self_nonneg vx) (sub_nonneg.mpr he2),
        mul_nonneg (mul_self_nonneg vy) (sub_nonneg.mpr he2)]
    simp only [State.step, hs, i2f, n2f, fadd, fmul, fneg, fexp, fsub, fdiv]
    simp [hfreqR, flt_some]
    intro hge
    exfalso
    nlinarith [hsnap]
  · rcases eq_or_ne cfg.decay 0 with hc | hc
    · simp [State.step, hs, i2f, n2f, fadd, fmul, fneg, fexp, fsub, fdiv, hfreqR,
        hc, flush, f2i]
    · have hmi : (1 : ℤ) ≤ cfg.decay := by omega
      have hm1 : (1 : ℝ) ≤ ((cfg.decay : ℤ) : ℝ) := by exact_mod_cast hmi
      have hmne : ((cfg.decay : ℤ) : ℝ) ≠ 0 := by linarith
      have hfx : f2i (some (vx * ((1 - Real.exp (-((tick : ℝ) / (freq : ℝ)
          * ((cfg.decay : ℤ) : ℝ)))) / ((cfg.decay : ℤ) : ℝ)))) = 0 :=
        send_component_truncates vx _ _ (by nlinarith [mul_self_nonneg vy]) he0 he1 hm1
      have hfy : f2i (some (vy * ((1 - Real.exp (-((tick : ℝ) / (freq : ℝ)
          * ((cfg.decay : ℤ) : ℝ)))) / ((cfg.decay : ℤ) : ℝ)))) = 0 :=
        send_component_truncates vy _ _ (by nlinarith [mul_self_nonneg vx]) he0 he1 hm1
      simp [State.step, hs, i2f, n2f, fadd, fmul, fneg, fexp, fsub, fdiv, hfreqR,
        hmne, flush, hfx, hfy]

/-- Auxiliary induction for C7: any positive number of zero-input ticks from
a small finite velocity ends with velocity `(0, 0)` and an empty emission
trace. -/
theorem zeroTicks_rest_aux (cfg : Config) (tick freq : ℕ) (cur : Rect)
    (hdecay : 0 ≤ cfg.decay) (hfreq : freq ≠ 0) :
    ∀ (n : ℕ) (s : State) (vx vy : ℝ), s.vel = Vec2f.mk (some vx) (some vy) →
      vx * vx + vy * vy < 1 / 10 →
      (zeroTicks cfg tick freq cur (n + 1) s).1.vel = Vec2f.mk (some 0) (some 0) ∧
      (zeroTicks cfg tick freq cur (n + 1) s).2 = []
  | 0, s, vx, vy, hs, hsmall => by
    have hstep := step_zero_input_rest cfg s vx vy hs hsmall hdecay tick freq hfreq cur
    simp [zeroTicks, hstep.1, hstep.2]
  | (m + 1), s, vx, vy, hs, hsmall => by
    have hstep := step_zero_input_rest cfg s vx vy hs hsmall hdecay tick freq hfreq cur
    have ihm := zeroTicks_rest_aux cfg tick freq cur hdecay hfreq m
      (State.step cfg s ⟨0, 0⟩ tick freq cur).1 0 0 hstep.1 (by norm_num)
    rw [zeroTicks]
    simp [hstep.2, ihm.1, ihm.2]

/-- Claim C7: for every finite velocity `v` with `|v|² < 0.1`, an engine tick
with zero input delta leaves the velocity at exactly `(0, 0)` and emits no
scroll step, and this holds for every number of repeated zero-input ticks
thereafter. -/
theorem rest_state_idempotent (cfg : Config) (s : State) (vx vy : ℝ)
    (hs : s.vel = Vec2f.mk (some vx) (some vy))
    (hsmall : vx * vx + vy * vy < 1 / 10)
    (hdecay : 0 ≤ cfg.decay)
    (tick freq : ℕ) (hfreq : freq ≠ 0) (cur : Rect) (n : ℕ) (hn : 1 ≤ n) :
    (zeroTicks cfg tick freq cur n s).1.vel = Vec2f.mk (some 0) (some 0) ∧
    (zeroTicks cfg tick freq cur n s).2 = [] := by
  obtain ⟨k, rfl⟩ : ∃ k, n = k + 1 := ⟨n - 1, by omega⟩
  exact zeroTicks_rest_aux cfg tick freq cur hdecay hfreq k s vx vy hs hsmall

/-- Witness for C7: from velocity `(0.2, 0.2)` (squared norm `0.08 < 0.1`) two
zero-input ticks at the default config end at `(0, 0)` with nothing
emitted. -/
theorem rest_state_idempotent_witness :
    ((1 : ℝ) / 5 * (1 / 5) + 1 / 5 * (1 / 5) < 1 / 10 ∧
      (0 : ℤ) ≤ defaultConfig.decay ∧ (100 : ℕ) ≠ 0 ∧ (1 : ℕ) ≤ 2) ∧
    ((zeroTicks defaultConfig 1 100 (Rect.mk 0 0 1 1) 2
        (State.mk ⟨some (1 / 5), some (1 / 5)⟩ ⟨some 0, some 0⟩
          (Rect.mk 0 0 0 0) false false)).1.vel = Vec2f.mk (some 0) (some 0) ∧
      (zeroTicks defaultConfig 1 100 (Rect.mk 0 0 1 1) 2
        (State.mk ⟨some (1 / 5), some (1 / 5)⟩ ⟨some 0, some 0⟩
          (Rect.mk 0 0 0 0) false false)).2 = []) :=
  ⟨⟨by norm_num, by decide, by norm_num, by norm_num⟩,
    rest_state_idempotent defaultConfig
      (State.mk ⟨some (1 / 5), some (1 / 5)⟩ ⟨some 0, some 0⟩
        (Rect.mk 0 0 0 0) false false)
      (1 / 5) (1 / 5) rfl (by norm_num) (by decide) 1 100 (by norm_num)
      (Rect.mk 0 0 1 1) 2 (by norm_num)⟩

end NimbusScroll
